import Mathlib

/-!
Verification development for the YouTube watch-time counter extension.

Shallow embedding of the two core components and the formatting helpers:

* `src/utils/time-format` (part_000): `formatDuration`, `formatDurationLong`,
  `formatTimestamp`;
* the content-script extractor (part_001): `getPageDataDuration`,
  `isLiveStream`, `extractDuration`;
* the service-worker coordinator (`src/entrypoints/background.ts`):
  `calculateTotalRemaining`, `schedulePersist`, `updateBadge`, the
  `reportDuration` / `getPopupData` / `toggleDisplay` handlers,
  `requestDurationFromTab`, tab-lifecycle reconciliation, and the
  storage rehydration path.

JavaScript numbers are modelled as exact rationals extended with the three
non-finite values `Infinity`, `-Infinity` and `NaN` (`JSNum`); floating-point
rounding is abstracted away, the negative zero is identified with zero.
Runtime record objects are modelled with the fields the code actually reads,
which is wider than the declared TypeScript interfaces: the popup reads
`tab.isLiveStream` and the background reads `info.playbackRate`, so the
record type carries both (`playbackRate` as an `Option`, since no message
ever supplies it).  The JavaScript `Map` is modelled as an insertion-ordered
association list with `Map.set` / `Map.delete` semantics.
-/

/-- A JavaScript number: a finite rational, an infinity, or NaN. -/
inductive JSNum where
  | num : ℚ → JSNum
  | inf : JSNum
  | ninf : JSNum
  | nan : JSNum
deriving DecidableEq, Repr

namespace JSNum

/-- `Number.isFinite`. -/
def isFinite : JSNum → Bool
  | num _ => true
  | _ => false

/-- The JavaScript comparison `x > 0` (`NaN > 0` is false, `Infinity > 0` true). -/
def gt0 : JSNum → Bool
  | num q => decide (0 < q)
  | inf => true
  | _ => false

/-- The JavaScript comparison `x < 0` (`NaN < 0` is false). -/
def lt0 : JSNum → Bool
  | num q => decide (q < 0)
  | ninf => true
  | _ => false

/-- JavaScript truthiness of a number: `0` and `NaN` are falsy. -/
def falsy : JSNum → Bool
  | num q => decide (q = 0)
  | nan => true
  | _ => false

/-- The rational value of a finite JavaScript number (0 for non-finite ones).
Only ever used under an `isFinite` guard. -/
def toRat : JSNum → ℚ
  | num q => q
  | _ => 0

/-- JavaScript subtraction. -/
def sub : JSNum → JSNum → JSNum
  | nan, _ => nan
  | _, nan => nan
  | num a, num b => num (a - b)
  | inf, num _ => inf
  | ninf, num _ => ninf
  | num _, inf => ninf
  | num _, ninf => inf
  | inf, inf => nan
  | inf, ninf => inf
  | ninf, inf => ninf
  | ninf, ninf => nan

/-- JavaScript division (negative zero identified with zero). -/
def div : JSNum → JSNum → JSNum
  | nan, _ => nan
  | _, nan => nan
  | inf, inf => nan
  | inf, ninf => nan
  | ninf, inf => nan
  | ninf, ninf => nan
  | inf, num b => if b < 0 then ninf else inf
  | ninf, num b => if b < 0 then inf else ninf
  | num _, inf => num 0
  | num _, ninf => num 0
  | num a, num b =>
      if b = 0 then (if a = 0 then nan else if 0 < a then inf else ninf)
      else num (a / b)

/-- `Math.max(0, x)`: NaN propagates, `-Infinity` clamps to 0. -/
def max0 : JSNum → JSNum
  | nan => nan
  | inf => inf
  | ninf => num 0
  | num q => num (max 0 q)

end JSNum

/-- The `videoType` discriminator of a record, `'video' | 'short'`. -/
inductive VideoType where
  | video : VideoType
  | short : VideoType
deriving DecidableEq, Repr

/-- A per-tab duration record as it exists at runtime in the coordinator's
map.  The declared interface `TabDurationInfo` (src/utils/types.ts) lists
`tabId`, `url`, `title`, `durationSeconds`, `currentTimeSeconds`,
`isLoading`, `videoType`; the running code additionally reads
`info.playbackRate` (background.ts line 21) and `tab.isLiveStream`
(popup renderer), so the dynamic record carries both: `playbackRate` as an
optional number (`undefined` when the field was never set) and
`isLiveStream` as a boolean (an absent field is falsy, i.e. `false`). -/
structure TabDurationInfo where
  tabId : ℕ
  url : String
  title : String
  durationSeconds : JSNum
  currentTimeSeconds : JSNum
  playbackRate : Option JSNum
  isLoading : Bool
  isLiveStream : Bool
  videoType : VideoType
deriving DecidableEq, Repr

/-- The runtime shape of a `DurationResponse` message, as constructed by the
extractor's `extractDuration` (part_001): it has an `isLiveStream` field on
top of the declared interface, and — decisive for the aggregate — no
`playbackRate` field at all. -/
structure DurationResponse where
  durationSeconds : JSNum
  currentTimeSeconds : JSNum
  isLiveStream : Bool
  isLoading : Bool
  videoType : VideoType
  url : String
  title : String
deriving DecidableEq, Repr

/-- `PopupData` (src/utils/types.ts). -/
structure PopupData where
  tabs : List TabDurationInfo
  totalDurationSeconds : ℚ
  totalFormatted : String
  displayEnabled : Bool
deriving DecidableEq, Repr

/-! ### Duration formatters (src/utils/time-format, part_000) -/

/-- `Math.floor` on a (finite) JavaScript number. -/
def mathFloor (a : ℚ) : ℤ := Rat.floor a

/-- JavaScript `%` as the formatters use it: both operands are finite, the
dividend is non-negative (the formatters guard negatives out first) and the
modulus positive, so the sign-of-dividend JavaScript remainder coincides
with the floor-based remainder. -/
def jsMod (a b : ℚ) : ℚ := a - b * (mathFloor (a / b) : ℤ)

/-- `String.prototype.padStart(n, c)`. -/
def padStart (s : String) (n : ℕ) (c : Char) : String :=
  String.mk (List.replicate (n - s.length) c) ++ s

/-- `formatDuration`: compact badge text such as "45m" or "2h30m". -/
def formatDuration (totalSeconds : JSNum) : String :=
  if !totalSeconds.isFinite || totalSeconds.lt0 then "0m"
  else
    let t := totalSeconds.toRat
    let hours : ℤ := mathFloor (t / 3600)
    let minutes : ℤ := mathFloor (jsMod t 3600 / 60)
    if hours = 0 then s!"{minutes}m" else s!"{hours}h{minutes}m"

/-- `formatDurationLong`: full text such as "2 hours, 30 minutes". -/
def formatDurationLong (totalSeconds : JSNum) : String :=
  if !totalSeconds.isFinite || totalSeconds.lt0 then "0 minutes"
  else
    let t := totalSeconds.toRat
    let hours : ℤ := mathFloor (t / 3600)
    let minutes : ℤ := mathFloor (jsMod t 3600 / 60)
    let seconds : ℤ := mathFloor (jsMod t 60)
    let parts : List String :=
      (if 0 < hours then [s!"{hours} hour" ++ (if hours ≠ 1 then "s" else "")] else []) ++
      (if 0 < minutes then [s!"{minutes} minute" ++ (if minutes ≠ 1 then "s" else "")] else [])
    let parts :=
      if parts = [] then [s!"{seconds} second" ++ (if seconds ≠ 1 then "s" else "")]
      else parts
    String.intercalate ", " parts

/-- `formatTimestamp`: per-tab text such as "1:23:45" or "5:30". -/
def formatTimestamp (totalSeconds : JSNum) : String :=
  if !totalSeconds.isFinite || totalSeconds.lt0 then "0:00"
  else
    let t := totalSeconds.toRat
    let hours : ℤ := mathFloor (t / 3600)
    let minutes : ℤ := mathFloor (jsMod t 3600 / 60)
    let secs : ℤ := mathFloor (jsMod t 60)
    let mm := padStart (toString minutes) 2 '0'
    let ss := padStart (toString secs) 2 '0'
    if 0 < hours then s!"{hours}:{mm}:{ss}" else s!"{minutes}:{ss}"

/-! ### Per-page extractor (content script, part_001)

The extractor reads the page through the DOM: the resolved main `<video>`
element (`getMainVideo`), the three page-data sources for `lengthSeconds`,
the two structured live flags, the location URL, and the title sources.
`PageState` is the snapshot of exactly those observations; DOM-query
mechanics (selector fallbacks, try/catch around host objects) are absorbed
into the optional fields: a field is `none` when the source is absent,
falsy, or its read threw. -/

/-- One page's observable state, as read by the content script. -/
structure PageState where
  /-- The element `getMainVideo()` resolves to, if any:
  its `duration` and `currentTime`. -/
  video : Option (JSNum × JSNum)
  /-- `Number(...)` of `ytd-watch-flexy` component data `lengthSeconds`,
  when that field is present and truthy (method 1). -/
  watchFlexyLengthSeconds : Option JSNum
  /-- `Number(...)` of `ytInitialPlayerResponse.videoDetails.lengthSeconds`,
  when present and truthy (method 2). -/
  ytInitialLengthSeconds : Option JSNum
  /-- `Number(...)` of the first regex-captured digit string
  \x22lengthSeconds\x22:\x22(\d+)\x22 in an inline script, if any (method 3). -/
  scriptLengthSeconds : Option JSNum
  /-- Truthiness of `ytd-watch-flexy` component data `videoDetails.isLive`. -/
  watchFlexyIsLive : Bool
  /-- Truthiness of `ytInitialPlayerResponse.videoDetails.isLive`. -/
  ytInitialIsLive : Bool
  /-- `location.href`. -/
  url : String
  /-- `document.title`. -/
  docTitle : String
  /-- Result of the title-selector fallback chain
  (already trimmed), if any selector matched. -/
  fallbackTitle : Option String
deriving DecidableEq, Repr

/-- One strategy of `getPageDataDuration`: accept the parsed value when it
is finite and positive, otherwise fall through. -/
def tryLengthSeconds (v : Option JSNum) : Option JSNum :=
  match v with
  | some n => if n.isFinite && n.gt0 then some n else none
  | none => none

/-- `getPageDataDuration`: the three page-data strategies tried in order,
first success wins; `null` when none yields a finite positive duration. -/
def getPageDataDuration (s : PageState) : Option JSNum :=
  match tryLengthSeconds s.watchFlexyLengthSeconds with
  | some n => some n
  | none =>
    match tryLengthSeconds s.ytInitialLengthSeconds with
    | some n => some n
    | none => tryLengthSeconds s.scriptLengthSeconds

/-- `isLiveStream`: either structured source marks the item live, or the
media element reports an infinite duration. -/
def isLiveStream (s : PageState) : Bool :=
  s.watchFlexyIsLive || s.ytInitialIsLive ||
    (match s.video with
     | some v => v.1 == JSNum.inf
     | none => false)

/-- `String.prototype.replace(pat, "")` with a string pattern: removes the
first occurrence only. -/
def removeFirst (s pat : String) : String :=
  match s.splitOn pat with
  | [] => s
  | [x] => x
  | x :: rest => x ++ String.intercalate pat rest

/-- `url.includes("/shorts/")`. -/
def urlHasShorts (url : String) : Bool :=
  (url.splitOn "/shorts/").length != 1

/-- The title-resolution logic at the top of `extractDuration`. -/
def resolveTitle (s : PageState) : String :=
  let t := (removeFirst s.docTitle " - YouTube").trim
  if t == "YouTube" || t == "" then
    match s.fallbackTitle with
    | some ft => if ft == "" then t else ft
    | none => t
  else t

/-- `extractDuration`: a total function from page state to a
`DurationResponse`; the no-data case is the `isLoading` record, never an
error. -/
def extractDuration (s : PageState) : DurationResponse :=
  let url := s.url
  let title := resolveTitle s
  let isShort := urlHasShorts url
  let live := isLiveStream s
  let currentTime := match s.video with
    | some v => v.2
    | none => JSNum.num 0
  let vt := if isShort then VideoType.short else VideoType.video
  match s.video with
  | some v =>
    if v.1.isFinite && v.1.gt0 then
      { durationSeconds := v.1, currentTimeSeconds := currentTime,
        isLiveStream := live, isLoading := false, videoType := vt,
        url := url, title := title }
    else
      match getPageDataDuration s with
      | some d =>
        { durationSeconds := d, currentTimeSeconds := currentTime,
          isLiveStream := live, isLoading := false, videoType := vt,
          url := url, title := title }
      | none =>
        { durationSeconds := JSNum.num 0, currentTimeSeconds := JSNum.num 0,
          isLiveStream := live, isLoading := true, videoType := vt,
          url := url, title := title }
  | none =>
    match getPageDataDuration s with
    | some d =>
      { durationSeconds := d, currentTimeSeconds := currentTime,
        isLiveStream := live, isLoading := false, videoType := vt,
        url := url, title := title }
    | none =>
      { durationSeconds := JSNum.num 0, currentTimeSeconds := JSNum.num 0,
        isLiveStream := live, isLoading := true, videoType := vt,
        url := url, title := title }

/-- Whether the media element reports a usable (finite, positive) duration,
i.e. the guard of the first branch of `extractDuration`. -/
def videoDurationUsable (s : PageState) : Bool :=
  match s.video with
  | some v => v.1.isFinite && v.1.gt0
  | none => false

/-! ### Central state aggregator (src/entrypoints/background.ts)

The `Map<number, TabDurationInfo>` is an insertion-ordered association
list; `mapSet` mirrors `Map.set` (update in place when the key exists,
append otherwise) and `mapDelete` mirrors `Map.delete`.  Durable storage is
modelled observably: `cacheWrites` logs every `storage.local.set` of the
record array, `flagWrites` every write of the display flag.  Transport
effects (badge paint) are the `badgeText` field. -/

/-- The coordinator's tab-record mapping. -/
abbrev TabMap : Type := List (ℕ × TabDurationInfo)

/-- `Map.prototype.get` / `Map.prototype.has`. -/
def mapLookup (m : TabMap) (k : ℕ) : Option TabDurationInfo :=
  (List.find? (fun p => p.1 == k) m).map (fun p => p.2)

/-- `Map.prototype.set`: replaces the value in place when the key is
present, appends otherwise. -/
def mapSet (m : TabMap) (k : ℕ) (v : TabDurationInfo) : TabMap :=
  if List.any m (fun p => p.1 == k) then
    List.map (fun p => if p.1 == k then (k, v) else p) m
  else m ++ [(k, v)]

/-- `Map.prototype.delete`. -/
def mapDelete (m : TabMap) (k : ℕ) : TabMap :=
  List.filter (fun p => p.1 != k) m

/-- `Map.prototype.values()` as an array. -/
def mapValues (m : TabMap) : List TabDurationInfo :=
  List.map (fun p => p.2) m

/-- The coordinator's state: the record map and display flag it owns, plus
the observable effects (badge text, pending persistence timer, logs of the
durable writes). -/
structure CoordState where
  tabDurations : TabMap
  displayEnabled : Bool
  badgeText : String
  persistPending : Bool
  cacheWrites : List (List TabDurationInfo)
  flagWrites : List Bool
deriving DecidableEq

/-- The coordinator's initial state: empty map, display on. -/
def initState : CoordState :=
  { tabDurations := [], displayEnabled := true, badgeText := "",
    persistPending := false, cacheWrites := [], flagWrites := [] }

/-- `isYouTubeVideoUrl`: an undefined or empty URL is rejected; otherwise
the two anchored regexes are prefix tests for
`https://www.youtube.com/watch` and `https://www.youtube.com/shorts/`. -/
def isYouTubeVideoUrl (url : Option String) : Bool :=
  match url with
  | none => false
  | some u =>
    if u == "" then false
    else u.startsWith "https://www.youtube.com/watch" ||
         u.startsWith "https://www.youtube.com/shorts/"

/-- One iteration of the `calculateTotalRemaining` loop: a non-loading
record adds `(duration - position) / (rate || 1)` to the accumulator when
that JavaScript number is finite and positive. -/
def totalStep (acc : ℚ) (p : ℕ × TabDurationInfo) : ℚ :=
  if p.2.isLoading then acc
  else
    let rate := match p.2.playbackRate with
      | none => JSNum.num 1
      | some r => if r.falsy then JSNum.num 1 else r
    let remaining := (p.2.durationSeconds.sub p.2.currentTimeSeconds).div rate
    if remaining.isFinite && remaining.gt0 then acc + remaining.toRat else acc

/-- `calculateTotalRemaining`: fold the loop body over the map's values in
insertion order.  Only finite values are ever added, so the running total
is an exact rational. -/
def calculateTotalRemaining (m : TabMap) : ℚ :=
  List.foldl totalStep 0 m

/-- `schedulePersist`: arm the 2-second persistence timer unless it is
already armed. -/
def schedulePersist (st : CoordState) : CoordState :=
  if st.persistPending then st else { st with persistPending := true }

/-- The armed persistence timer firing at the window boundary: disarm and
write the map's values as they are at that moment. -/
def firePersistTimer (st : CoordState) : CoordState :=
  if st.persistPending then
    { st with persistPending := false,
              cacheWrites := st.cacheWrites ++ [mapValues st.tabDurations] }
  else st

/-- `updateBadge`: recompute the aggregate; paint the empty string when the
display is disabled, otherwise the formatted total (empty when zero); in
either case schedule a persistence write. -/
def updateBadge (st : CoordState) : CoordState :=
  let totalSeconds := calculateTotalRemaining st.tabDurations
  if !st.displayEnabled then
    schedulePersist { st with badgeText := "" }
  else
    schedulePersist
      { st with badgeText :=
          if 0 < totalSeconds then formatDuration (JSNum.num totalSeconds) else "" }

/-- Building the coordinator's record from a `DurationResponse`: the
handler copies the listed fields; `response.playbackRate` reads a field the
message does not carry (`undefined`, modelled `none`), and no
`isLiveStream` field is copied at all (an absent field is falsy). -/
def toInfo (tabId : ℕ) (r : DurationResponse) : TabDurationInfo :=
  { tabId := tabId, url := r.url, title := r.title,
    durationSeconds := r.durationSeconds,
    currentTimeSeconds := r.currentTimeSeconds,
    playbackRate := none,
    isLoading := r.isLoading,
    isLiveStream := false,
    videoType := r.videoType }

/-- The `reportDuration` push handler: no sender tab id means no change; a
URL outside the tracked patterns deletes the tab's record; otherwise the
record is upserted.  Both mutation paths repaint. -/
def handleReportDuration (st : CoordState) (sender : Option ℕ)
    (data : DurationResponse) : CoordState :=
  match sender with
  | none => st
  | some tabId =>
    if !isYouTubeVideoUrl (some data.url) then
      updateBadge { st with tabDurations := mapDelete st.tabDurations tabId }
    else
      updateBadge
        { st with tabDurations := mapSet st.tabDurations tabId (toInfo tabId data) }

/-- `requestDurationFromTab`: a pull.  `response = none` is the transport
rejecting (no content script, tab gone): the catch block is empty, the
state is untouched.  On a response the record is upserted and the badge
repainted (the still-loading retry is a later, separate pull). -/
def requestDurationFromTab (st : CoordState) (tabId : ℕ)
    (response : Option DurationResponse) : CoordState :=
  match response with
  | none => st
  | some r =>
    updateBadge
      { st with tabDurations := mapSet st.tabDurations tabId (toInfo tabId r) }

/-- The `tabs.onRemoved` listener, and equally the delete branches of
`tabs.onUpdated` and `webNavigation.onHistoryStateUpdated` for a tab that
left the tracked URL patterns: delete the record if present, repaint. -/
def handleTabGone (st : CoordState) (tabId : ℕ) : CoordState :=
  if (mapLookup st.tabDurations tabId).isSome then
    updateBadge { st with tabDurations := mapDelete st.tabDurations tabId }
  else st

/-- The cleanup part of `scanAllYouTubeTabs`: drop records whose tab no
longer exists, then repaint (the per-tab pulls are separate steps). -/
def scanCleanup (st : CoordState) (activeTabIds : List ℕ) : CoordState :=
  updateBadge
    { st with tabDurations :=
        List.filter (fun p => List.contains activeTabIds p.1) st.tabDurations }

/-- The `toggleDisplay` handler: flip the flag, write it to storage
immediately, repaint; the handler returns the new flag. -/
def handleToggleDisplay (st : CoordState) : CoordState × Bool :=
  let newFlag := !st.displayEnabled
  let st1 := { st with displayEnabled := newFlag,
                       flagWrites := st.flagWrites ++ [newFlag] }
  (updateBadge st1, newFlag)

/-- The `getPopupData` handler: a snapshot of the records, the recomputed
aggregate, its formatted text, and the display flag. -/
def getPopupData (st : CoordState) : PopupData :=
  { tabs := mapValues st.tabDurations,
    totalDurationSeconds := calculateTotalRemaining st.tabDurations,
    totalFormatted :=
      formatDuration (JSNum.num (calculateTotalRemaining st.tabDurations)),
    displayEnabled := st.displayEnabled }

/-- The startup rehydration: a fresh coordinator restores the persisted
display flag (when the stored value is a boolean) and re-keys each cached
record by its own `tabId` field, then repaints. -/
def rehydrate (storedFlag : Option Bool) (cache : List TabDurationInfo) :
    CoordState :=
  updateBadge
    { initState with
        displayEnabled := storedFlag.getD true,
        tabDurations :=
          List.foldl (fun m info => mapSet m info.tabId info) [] cache }

/-- The coordinator states reachable through the background script's event
handlers, including a service-worker restart that rehydrates a previously
persisted record array. -/
inductive Reachable : CoordState → Prop where
  | init : Reachable initState
  | freshStart (flag : Option Bool) : Reachable (rehydrate flag [])
  | report {st : CoordState} (h : Reachable st) (sender : Option ℕ)
      (data : DurationResponse) : Reachable (handleReportDuration st sender data)
  | pull {st : CoordState} (h : Reachable st) (tabId : ℕ)
      (response : Option DurationResponse) :
      Reachable (requestDurationFromTab st tabId response)
  | tabGone {st : CoordState} (h : Reachable st) (tabId : ℕ) :
      Reachable (handleTabGone st tabId)
  | scan {st : CoordState} (h : Reachable st) (activeTabIds : List ℕ) :
      Reachable (scanCleanup st activeTabIds)
  | toggle {st : CoordState} (h : Reachable st) :
      Reachable (handleToggleDisplay st).1
  | fire {st : CoordState} (h : Reachable st) : Reachable (firePersistTimer st)
  | restart {st : CoordState} (h : Reachable st) (flag : Option Bool)
      (cache : List TabDurationInfo) (hc : cache ∈ st.cacheWrites) :
      Reachable (rehydrate flag cache)

/-! ### Spec-side definitions

These follow the spec's words (for refinement comparison against the
definitions above, which follow the source). -/

/-- Claim C2's per-record formula as the spec words it: `max(0,
durationSeconds - currentTimeSeconds) / playbackRate`, a missing or zero
rate treated as 1, and a non-finite or negative result contributing
nothing. -/
def specC2PerRecord (info : TabDurationInfo) : ℚ :=
  let rate := match info.playbackRate with
    | none => JSNum.num 1
    | some r => if r == JSNum.num 0 then JSNum.num 1 else r
  let res := ((info.durationSeconds.sub info.currentTimeSeconds).max0).div rate
  if res.isFinite && !res.lt0 then res.toRat else 0

/-- Claim C2's aggregate as the spec words it: the sum of the per-record
formula over exactly the records with `isLoading = false`. -/
def specC2Total (m : TabMap) : ℚ :=
  (List.map (fun p => specC2PerRecord p.2)
    (List.filter (fun p => !p.2.isLoading) m)).sum

/-- The amended per-record contribution: `(durationSeconds -
currentTimeSeconds) / (playbackRate || 1)` — the difference not clamped at
zero before dividing, a falsy (missing, zero, or NaN) rate treated as 1 —
counted only when finite and strictly positive. -/
def amendedPerRecord (info : TabDurationInfo) : ℚ :=
  let rate := match info.playbackRate with
    | none => JSNum.num 1
    | some r => if r.falsy then JSNum.num 1 else r
  let remaining := (info.durationSeconds.sub info.currentTimeSeconds).div rate
  if remaining.isFinite && remaining.gt0 then remaining.toRat else 0

/-- The amended aggregate: the sum of `amendedPerRecord` over exactly the
records with `isLoading = false`. -/
def amendedTotal (m : TabMap) : ℚ :=
  (List.map (fun p => amendedPerRecord p.2)
    (List.filter (fun p => !p.2.isLoading) m)).sum

/-- The rate-free aggregate of claim C9: each non-loading record
contributes exactly `durationSeconds - currentTimeSeconds` whenever that
difference is finite and positive. -/
def noRateTotal (m : TabMap) : ℚ :=
  (List.map
    (fun p =>
      let d := p.2.durationSeconds.sub p.2.currentTimeSeconds
      if d.isFinite && d.gt0 then d.toRat else 0)
    (List.filter (fun p => !p.2.isLoading) m)).sum

/-- One record-map mutation together with the `schedulePersist` call that
every mutation path in the background script makes (each mutation is
followed by `updateBadge`, which ends in `schedulePersist`). -/
def mutateAndSchedule (s : CoordState) (f : TabMap → TabMap) : CoordState :=
  schedulePersist { s with tabDurations := f s.tabDurations }

/-- The C9 invariant: no record in the coordinator's map, nor in any
persisted snapshot of it, carries a `playbackRate`. -/
def ratesAbsent (st : CoordState) : Prop :=
  (∀ p ∈ st.tabDurations, p.2.playbackRate = none) ∧
  (∀ c ∈ st.cacheWrites, ∀ i ∈ c, i.playbackRate = none)

/-! ### Concrete sample inputs for witnesses and counterexamples -/

/-- A non-loading record flagged as a live stream (the shape the extractor
produces for a live video whose page data exposes a positive
`lengthSeconds`). -/
def liveRecord : TabDurationInfo :=
  { tabId := 1, url := "https://www.youtube.com/watch?v=live",
    title := "live", durationSeconds := JSNum.num 100,
    currentTimeSeconds := JSNum.num 0, playbackRate := none,
    isLoading := false, isLiveStream := true, videoType := VideoType.video }

/-- A non-loading record whose position exceeds its duration and whose
playback rate is negative. -/
def negRateRecord : TabDurationInfo :=
  { tabId := 2, url := "https://www.youtube.com/watch?v=neg",
    title := "neg", durationSeconds := JSNum.num 0,
    currentTimeSeconds := JSNum.num 10,
    playbackRate := some (JSNum.num (-2)), isLoading := false,
    isLiveStream := false, videoType := VideoType.video }

/-- An ordinary finished-loading record. -/
def sampleInfo : TabDurationInfo :=
  { tabId := 7, url := "https://www.youtube.com/watch?v=s",
    title := "s", durationSeconds := JSNum.num 60,
    currentTimeSeconds := JSNum.num 0, playbackRate := none,
    isLoading := false, isLiveStream := false, videoType := VideoType.video }

/-- An ordinary extractor response. -/
def sampleResp : DurationResponse :=
  { durationSeconds := JSNum.num 120, currentTimeSeconds := JSNum.num 20,
    isLiveStream := false, isLoading := false, videoType := VideoType.video,
    url := "https://www.youtube.com/watch?v=w", title := "w" }

/-- A page whose media element reports a usable duration while page data
offers a different value. -/
def pageWithVideo : PageState :=
  { video := some (JSNum.num 300, JSNum.num 30),
    watchFlexyLengthSeconds := some (JSNum.num 250),
    ytInitialLengthSeconds := none, scriptLengthSeconds := none,
    watchFlexyIsLive := false, ytInitialIsLive := false,
    url := "https://www.youtube.com/watch?v=a", docTitle := "A - YouTube",
    fallbackTitle := none }

/-- A page with no media element and no page data at all. -/
def pageNoData : PageState :=
  { video := none, watchFlexyLengthSeconds := none,
    ytInitialLengthSeconds := none, scriptLengthSeconds := none,
    watchFlexyIsLive := false, ytInitialIsLive := false,
    url := "https://www.youtube.com/watch?v=b", docTitle := "YouTube",
    fallbackTitle := none }

/-- A burst of three record-map mutations inside one throttle window. -/
def sampleMutations : List (TabMap → TabMap) :=
  [fun m => mapSet m 7 sampleInfo, fun m => mapDelete m 7,
   fun m => mapSet m 7 sampleInfo]

/-- A coordinator state with the display enabled and one tracked tab. -/
def stOn : CoordState :=
  { tabDurations := [(7, sampleInfo)], displayEnabled := true,
    badgeText := "1m", persistPending := false, cacheWrites := [],
    flagWrites := [] }

/-! ### Helper lemmas -/

theorem totalStep_eq (acc : ℚ) (p : ℕ × TabDurationInfo) :
    totalStep acc p =
      acc + (if p.2.isLoading then 0 else amendedPerRecord p.2) := by
  unfold totalStep amendedPerRecord
  by_cases hp : p.2.isLoading
  · simp [hp]
  · simp only [hp, if_false, Bool.false_eq_true]
    split
    · rfl
    · simp

theorem amendedTotal_cons (p : ℕ × TabDurationInfo) (t : TabMap) :
    amendedTotal (p :: t) =
      (if p.2.isLoading then 0 else amendedPerRecord p.2) + amendedTotal t := by
  unfold amendedTotal
  by_cases hp : p.2.isLoading
  · simp [List.filter_cons, hp]
  · simp [List.filter_cons, hp]

theorem calculateTotalRemaining_aux (m : TabMap) (acc : ℚ) :
    List.foldl totalStep acc m = acc + amendedTotal m := by
  induction m generalizing acc with
  | nil => simp [amendedTotal]
  | cons p t ih =>
    rw [List.foldl_cons, ih, totalStep_eq, amendedTotal_cons, add_assoc]

theorem mapLookup_cons (p : ℕ × TabDurationInfo) (t : TabMap) (j : ℕ) :
    mapLookup (p :: t) j = if p.1 = j then some p.2 else mapLookup t j := by
  by_cases h : p.1 = j
  · simp [mapLookup, List.find?_cons_of_pos, h]
  · rw [if_neg h]
    unfold mapLookup
    rw [List.find?_cons_of_neg]
    simp [h]

theorem mapDelete_cons (p : ℕ × TabDurationInfo) (t : TabMap) (k : ℕ) :
    mapDelete (p :: t) k =
      if p.1 = k then mapDelete t k else p :: mapDelete t k := by
  by_cases h : p.1 = k <;> simp [mapDelete, List.filter_cons, h]

theorem mapLookup_mapDelete_self (m : TabMap) (k : ℕ) :
    mapLookup (mapDelete m k) k = none := by
  induction m with
  | nil => rfl
  | cons p t ih =>
    rw [mapDelete_cons]
    by_cases h : p.1 = k
    · simpa [h] using ih
    · rw [if_neg h, mapLookup_cons, if_neg h]
      exact ih

theorem mapLookup_mapDelete_other (m : TabMap) (k j : ℕ) (hne : j ≠ k) :
    mapLookup (mapDelete m k) j = mapLookup m j := by
  induction m with
  | nil => rfl
  | cons p t ih =>
    rw [mapDelete_cons, mapLookup_cons]
    by_cases h : p.1 = k
    · rw [if_pos h, ih, if_neg (by omega)]
    · rw [if_neg h, mapLookup_cons, ih]

theorem lookup_map_replace (m : TabMap) (k : ℕ) (v : TabDurationInfo)
    (hany : List.any m (fun p => p.1 == k) = true) :
    mapLookup (List.map (fun p => if p.1 == k then (k, v) else p) m) k
      = some v := by
  induction m with
  | nil => simp at hany
  | cons p t ih =>
    by_cases h : p.1 = k
    · simp [List.map_cons, h, mapLookup_cons]
    · rw [List.map_cons, if_neg (by simpa using h), mapLookup_cons, if_neg h]
      exact ih (by simpa [List.any_cons, h] using hany)

theorem lookup_append_single (m : TabMap) (k : ℕ) (v : TabDurationInfo)
    (hnone : List.any m (fun p => p.1 == k) = false) :
    mapLookup (m ++ [(k, v)]) k = some v := by
  induction m with
  | nil => simp [mapLookup_cons]
  | cons p t ih =>
    have h : ¬ p.1 = k := by
      intro hc
      simp [List.any_cons, hc] at hnone
    rw [List.cons_append, mapLookup_cons, if_neg h]
    exact ih (by simpa [List.any_cons, h] using hnone)

theorem mapLookup_mapSet_self (m : TabMap) (k : ℕ) (v : TabDurationInfo) :
    mapLookup (mapSet m k v) k = some v := by
  unfold mapSet
  by_cases hany : List.any m (fun p => p.1 == k) = true
  · rw [if_pos hany]
    exact lookup_map_replace m k v hany
  · rw [if_neg hany]
    exact lookup_append_single m k v (Bool.eq_false_iff.mpr hany)

theorem mem_mapDelete {m : TabMap} {k : ℕ} {p : ℕ × TabDurationInfo}
    (h : p ∈ mapDelete m k) : p ∈ m :=
  List.mem_of_mem_filter h

theorem mem_mapSet {m : TabMap} {k : ℕ} {v : TabDurationInfo}
    {p : ℕ × TabDurationInfo} (h : p ∈ mapSet m k v) : p ∈ m ∨ p = (k, v) := by
  unfold mapSet at h
  split at h
  · rcases List.mem_map.1 h with ⟨q, hq, rfl⟩
    by_cases hqk : q.1 = k
    · simp [hqk]
    · simp only [hqk, beq_iff_eq, if_false]
      left
      simpa [hqk] using hq
  · rcases List.mem_append.1 h with h1 | h1
    · exact Or.inl h1
    · simp only [List.mem_singleton] at h1
      exact Or.inr h1

theorem mem_foldl_mapSet {cache : List TabDurationInfo}
    {P : ℕ × TabDurationInfo → Prop}
    (hc : ∀ i ∈ cache, P (i.tabId, i)) :
    ∀ {m : TabMap}, (∀ p ∈ m, P p) →
      ∀ p ∈ List.foldl (fun m info => mapSet m info.tabId info) m cache, P p := by
  induction cache with
  | nil => intro m hm p hp; exact hm p hp
  | cons i t ih =>
    intro m hm p hp
    refine ih (fun j hj => hc j (List.mem_cons_of_mem i hj)) ?_ p hp
    intro q hq
    rcases mem_mapSet hq with h1 | h1
    · exact hm q h1
    · rw [h1]
      exact hc i (List.mem_cons_self i t)

theorem schedulePersist_tabDurations (st : CoordState) :
    (schedulePersist st).tabDurations = st.tabDurations := by
  unfold schedulePersist
  split <;> rfl

theorem schedulePersist_cacheWrites (st : CoordState) :
    (schedulePersist st).cacheWrites = st.cacheWrites := by
  unfold schedulePersist
  split <;> rfl

theorem schedulePersist_flagWrites (st : CoordState) :
    (schedulePersist st).flagWrites = st.flagWrites := by
  unfold schedulePersist
  split <;> rfl

theorem schedulePersist_displayEnabled (st : CoordState) :
    (schedulePersist st).displayEnabled = st.displayEnabled := by
  unfold schedulePersist
  split <;> rfl

theorem schedulePersist_badgeText (st : CoordState) :
    (schedulePersist st).badgeText = st.badgeText := by
  unfold schedulePersist
  split <;> rfl

theorem updateBadge_tabDurations (st : CoordState) :
    (updateBadge st).tabDurations = st.tabDurations := by
  unfold updateBadge
  split <;> rw [schedulePersist_tabDurations]

theorem updateBadge_cacheWrites (st : CoordState) :
    (updateBadge st).cacheWrites = st.cacheWrites := by
  unfold updateBadge
  split <;> rw [schedulePersist_cacheWrites]

theorem updateBadge_flagWrites (st : CoordState) :
    (updateBadge st).flagWrites = st.flagWrites := by
  unfold updateBadge
  split <;> rw [schedulePersist_flagWrites]

theorem updateBadge_displayEnabled (st : CoordState) :
    (updateBadge st).displayEnabled = st.displayEnabled := by
  unfold updateBadge
  split <;> rw [schedulePersist_displayEnabled]

theorem updateBadge_badgeText_disabled (st : CoordState)
    (h : st.displayEnabled = false) : (updateBadge st).badgeText = "" := by
  unfold updateBadge
  rw [h]
  simp [schedulePersist_badgeText]

theorem JSNum.div_one (x : JSNum) : x.div (JSNum.num 1) = x := by
  cases x <;> simp [JSNum.div]

theorem amendedPerRecord_no_rate {info : TabDurationInfo}
    (h : info.playbackRate = none) :
    amendedPerRecord info =
      (if (info.durationSeconds.sub info.currentTimeSeconds).isFinite &&
          (info.durationSeconds.sub info.currentTimeSeconds).gt0 then
        (info.durationSeconds.sub info.currentTimeSeconds).toRat
       else 0) := by
  unfold amendedPerRecord
  rw [h]
  simp only [JSNum.div_one]

theorem amendedTotal_eq_noRateTotal {m : TabMap}
    (h : ∀ p ∈ m, p.2.playbackRate = none) :
    amendedTotal m = noRateTotal m := by
  unfold amendedTotal noRateTotal
  refine congrArg List.sum (List.map_congr_left ?_)
  intro p hp
  exact amendedPerRecord_no_rate (h p (List.mem_of_mem_filter hp))

theorem foldl_mutate_pending (fs : List (TabMap → TabMap)) :
    ∀ s : CoordState, s.persistPending = true →
      (List.foldl mutateAndSchedule s fs).persistPending = true ∧
      (List.foldl mutateAndSchedule s fs).cacheWrites = s.cacheWrites := by
  induction fs with
  | nil => exact fun s hs => ⟨hs, rfl⟩
  | cons f t ih =>
    intro s hs
    rw [List.foldl_cons]
    have h1 : (mutateAndSchedule s f).persistPending = true := by
      simp [mutateAndSchedule, schedulePersist, hs]
    have h2 : (mutateAndSchedule s f).cacheWrites = s.cacheWrites := by
      simp [mutateAndSchedule, schedulePersist, hs]
    obtain ⟨ha, hb⟩ := ih _ h1
    exact ⟨ha, hb.trans h2⟩

theorem ratesAbsent_transfer {st st' : CoordState}
    (ht : st'.tabDurations = st.tabDurations)
    (hc : st'.cacheWrites = st.cacheWrites)
    (h : ratesAbsent st) : ratesAbsent st' := by
  unfold ratesAbsent at h ⊢
  rw [ht, hc]
  exact h

theorem ratesAbsent_map_mapSet {m : TabMap}
    (h : ∀ p ∈ m, p.2.playbackRate = none) (k : ℕ) (r : DurationResponse) :
    ∀ p ∈ mapSet m k (toInfo k r), p.2.playbackRate = none := by
  intro p hp
  rcases mem_mapSet hp with h1 | h1
  · exact h p h1
  · rw [h1]
    rfl

theorem reachable_ratesAbsent {st : CoordState} (h : Reachable st) :
    ratesAbsent st := by
  induction h with
  | init =>
    exact ⟨fun p hp => absurd hp (List.not_mem_nil p),
           fun c hc => absurd hc (List.not_mem_nil c)⟩
  | freshStart flag =>
    refine ratesAbsent_transfer (updateBadge_tabDurations _)
      (updateBadge_cacheWrites _) ?_
    exact ⟨fun p hp => absurd hp (List.not_mem_nil p),
           fun c hc => absurd hc (List.not_mem_nil c)⟩
  | report h sender data ih =>
    cases sender with
    | none => exact ih
    | some tabId =>
      unfold handleReportDuration
      by_cases hurl : isYouTubeVideoUrl (some data.url) = true
      · simp only [hurl, Bool.not_true, Bool.false_eq_true, if_false]
        exact ratesAbsent_transfer (updateBadge_tabDurations _)
          (updateBadge_cacheWrites _)
          ⟨ratesAbsent_map_mapSet ih.1 tabId data, ih.2⟩
      · have hurl2 : isYouTubeVideoUrl (some data.url) = false :=
          Bool.eq_false_iff.mpr hurl
        simp only [hurl2, Bool.not_false, if_true]
        exact ratesAbsent_transfer (updateBadge_tabDurations _)
          (updateBadge_cacheWrites _)
          ⟨fun p hp => ih.1 p (mem_mapDelete hp), ih.2⟩
  | pull h tabId response ih =>
    cases response with
    | none => exact ih
    | some r =>
      exact ratesAbsent_transfer (updateBadge_tabDurations _)
        (updateBadge_cacheWrites _)
        ⟨ratesAbsent_map_mapSet ih.1 tabId r, ih.2⟩
  | tabGone h tabId ih =>
    unfold handleTabGone
    split
    · exact ratesAbsent_transfer (updateBadge_tabDurations _)
        (updateBadge_cacheWrites _)
        ⟨fun p hp => ih.1 p (mem_mapDelete hp), ih.2⟩
    · exact ih
  | scan h activeTabIds ih =>
    refine ratesAbsent_transfer (updateBadge_tabDurations _)
      (updateBadge_cacheWrites _) ?_
    exact ⟨fun p hp => ih.1 p (List.mem_of_mem_filter hp), ih.2⟩
  | toggle h ih =>
    refine ratesAbsent_transfer (updateBadge_tabDurations _)
      (updateBadge_cacheWrites _) ?_
    exact ⟨ih.1, ih.2⟩
  | fire h ih =>
    unfold firePersistTimer
    split
    · constructor
      · exact ih.1
      · intro c hc
        rcases List.mem_append.1 hc with h1 | h1
        · exact ih.2 c h1
        · rw [List.mem_singleton] at h1
          subst h1
          intro i hi
          rcases List.mem_map.1 hi with ⟨p, hp, rfl⟩
          exact ih.1 p hp
    · exact ih
  | restart h flag cache hc ih =>
    refine ratesAbsent_transfer (updateBadge_tabDurations _)
      (updateBadge_cacheWrites _) ?_
    constructor
    · refine mem_foldl_mapSet (fun i hi => ih.2 cache hc i hi) ?_
      exact fun p hp => absurd hp (List.not_mem_nil p)
    · exact fun c hcc => absurd hcc (List.not_mem_nil c)

/-! ### Claims -/

/-- Claim C1 (code bug evaluated): `calculateTotalRemaining` does NOT
exclude live-stream records — it filters on `isLoading` only.  At the
failing input, a single record with `isLiveStream = true`, `isLoading =
false`, duration 100 and position 0, the aggregate is 100, not 0 as the
claim (and the repository README, which says live streams are excluded
from the total) requires. -/
theorem c1_live_record_counted :
    liveRecord.isLiveStream = true ∧ liveRecord.isLoading = false ∧
    calculateTotalRemaining [(1, liveRecord)] = 100 := by
  refine ⟨rfl, rfl, ?_⟩
  with_unfolding_all decide

/-- Claim C2 counterexample: with rate −2, duration 0 and position 10 the
code adds `(0 − 10)/(−2) = 5`, while the spec's formula clamps the
difference to 0 before dividing and so contributes nothing. -/
theorem c2_counterexample :
    calculateTotalRemaining [(2, negRateRecord)] ≠
      specC2Total [(2, negRateRecord)] := by
  with_unfolding_all decide

/-- Claim C2 (amended): `calculateTotalRemaining` returns the sum, over
exactly the records with `isLoading = false`, of `(durationSeconds -
currentTimeSeconds) / playbackRate` — the difference is not clamped at
zero before dividing — where a falsy (missing, zero, or NaN) playbackRate
is treated as 1, and a per-record result contributes only when it is
finite and strictly positive. -/
theorem c2_amended_total (m : TabMap) :
    calculateTotalRemaining m = amendedTotal m := by
  unfold calculateTotalRemaining
  rw [calculateTotalRemaining_aux, zero_add]

/-- Claim C3: `extractDuration` is a total function (it returns a value on
every page state).  When the media element reports a finite positive
duration, that value is returned and preferred over the page-data
strategies; when the element does not and no strategy yields a positive
finite duration, the result is the normal loading record with zero
duration and position. -/
theorem c3_extractDuration_total (s : PageState) :
    (∀ d ct, s.video = some (d, ct) → (d.isFinite && d.gt0) = true →
      (extractDuration s).durationSeconds = d ∧
      (extractDuration s).isLoading = false) ∧
    (videoDurationUsable s = false → getPageDataDuration s = none →
      (extractDuration s).isLoading = true ∧
      (extractDuration s).durationSeconds = JSNum.num 0 ∧
      (extractDuration s).currentTimeSeconds = JSNum.num 0) := by
  constructor
  · intro d ct hv hd
    simp [extractDuration, hv, hd]
  · intro hvu hpd
    unfold videoDurationUsable at hvu
    cases hsv : s.video with
    | none =>
      simp [extractDuration, hsv, hpd]
    | some v =>
      rw [hsv] at hvu
      have hvu2 : (v.1.isFinite && v.1.gt0) = false := hvu
      simp only [extractDuration, hsv, hpd]
      rw [hvu2]
      exact ⟨rfl, rfl, rfl⟩

/-- Claim C3 witness: a page with a loaded media element (duration 300)
and conflicting page data (250) reports 300 and is not loading; a page
with no sources reports the loading record. -/
theorem c3_witness :
    ((extractDuration pageWithVideo).durationSeconds = JSNum.num 300 ∧
     (extractDuration pageWithVideo).isLoading = false) ∧
    ((extractDuration pageNoData).isLoading = true ∧
     (extractDuration pageNoData).durationSeconds = JSNum.num 0 ∧
     (extractDuration pageNoData).currentTimeSeconds = JSNum.num 0) :=
  ⟨(c3_extractDuration_total pageWithVideo).1 (JSNum.num 300) (JSNum.num 30)
      rfl (by decide),
   (c3_extractDuration_total pageNoData).2 (by decide) rfl⟩

/-- Claim C4: a push from a defined sender tab whose URL is outside the
tracked patterns leaves the mapping equal to a deletion of that tab (so
the tab is absent afterwards and nothing is inserted); a push whose URL
matches upserts the record for that tab instead. -/
theorem c4_push_url_filter (st : CoordState) (tabId : ℕ)
    (data : DurationResponse) :
    (handleReportDuration st (some tabId) data).tabDurations =
      (if isYouTubeVideoUrl (some data.url) then
        mapSet st.tabDurations tabId (toInfo tabId data)
       else mapDelete st.tabDurations tabId) ∧
    mapLookup (handleReportDuration st (some tabId) data).tabDurations tabId =
      (if isYouTubeVideoUrl (some data.url) then some (toInfo tabId data)
       else none) := by
  unfold handleReportDuration
  by_cases hurl : isYouTubeVideoUrl (some data.url) = true
  · simp only [hurl, Bool.not_true, Bool.false_eq_true, if_false, if_true,
      updateBadge_tabDurations]
    exact ⟨trivial, mapLookup_mapSet_self _ _ _⟩
  · have hurl2 : isYouTubeVideoUrl (some data.url) = false :=
      Bool.eq_false_iff.mpr hurl
    simp only [hurl2, Bool.not_false, if_true, Bool.false_eq_true, if_false,
      updateBadge_tabDurations]
    exact ⟨trivial, mapLookup_mapDelete_self _ _⟩

/-- Claim C5: a pull whose transport rejects (no extractor attached or tab
gone) leaves the coordinator state — in particular every entry of the
record mapping — exactly as it was. -/
theorem c5_pull_failure_noop (st : CoordState) (tabId k : ℕ) :
    requestDurationFromTab st tabId none = st ∧
    mapLookup (requestDurationFromTab st tabId none).tabDurations k =
      mapLookup st.tabDurations k :=
  ⟨rfl, rfl⟩

/-- Claim C6: starting with no pending write, any non-empty burst of
record-map mutations inside one throttle window performs no durable write
during the window, leaves exactly one write armed, and the timer firing at
the window boundary performs exactly one write capturing the mapping as it
is at the boundary. -/
theorem c6_persist_throttle (st : CoordState)
    (fs : List (TabMap → TabMap)) (h0 : st.persistPending = false)
    (hn : fs ≠ []) :
    (List.foldl mutateAndSchedule st fs).cacheWrites = st.cacheWrites ∧
    (List.foldl mutateAndSchedule st fs).persistPending = true ∧
    (firePersistTimer (List.foldl mutateAndSchedule st fs)).persistPending
      = false ∧
    (firePersistTimer (List.foldl mutateAndSchedule st fs)).cacheWrites =
      st.cacheWrites ++
        [mapValues (List.foldl mutateAndSchedule st fs).tabDurations] := by
  cases fs with
  | nil => exact absurd rfl hn
  | cons f t =>
    rw [List.foldl_cons]
    have h1 : (mutateAndSchedule st f).persistPending = true := by
      simp [mutateAndSchedule, schedulePersist, h0]
    have h2 : (mutateAndSchedule st f).cacheWrites = st.cacheWrites := by
      simp [mutateAndSchedule, schedulePersist, h0]
    obtain ⟨ha, hb⟩ := foldl_mutate_pending t _ h1
    refine ⟨hb.trans h2, ha, ?_, ?_⟩
    · simp [firePersistTimer, ha]
    · simp [firePersistTimer, ha, hb.trans h2]

/-- Claim C6 witness: three mutations from the initial state coalesce into
the single boundary write of the final mapping. -/
theorem c6_witness :
    (List.foldl mutateAndSchedule initState sampleMutations).cacheWrites =
      initState.cacheWrites ∧
    (List.foldl mutateAndSchedule initState sampleMutations).persistPending
      = true ∧
    (firePersistTimer
      (List.foldl mutateAndSchedule initState sampleMutations)).persistPending
      = false ∧
    (firePersistTimer
      (List.foldl mutateAndSchedule initState sampleMutations)).cacheWrites =
      initState.cacheWrites ++
        [mapValues
          (List.foldl mutateAndSchedule initState sampleMutations).tabDurations] :=
  c6_persist_throttle initState sampleMutations rfl
    (by unfold sampleMutations; exact List.cons_ne_nil _ _)

/-- Claim C7: the toggle flips the display flag, writes the new flag to
storage immediately (the flag-write log grows at once, the throttled cache
log does not), returns the new flag, repaints (empty badge when the flag
becomes false), and a subsequent `getPopupData` snapshot still reports the
true aggregate of the unchanged record mapping. -/
theorem c7_toggle (st : CoordState) :
    (handleToggleDisplay st).1.displayEnabled = !st.displayEnabled ∧
    (handleToggleDisplay st).2 = !st.displayEnabled ∧
    (handleToggleDisplay st).1.flagWrites =
      st.flagWrites ++ [!st.displayEnabled] ∧
    (handleToggleDisplay st).1.cacheWrites = st.cacheWrites ∧
    (handleToggleDisplay st).1.tabDurations = st.tabDurations ∧
    (st.displayEnabled = true → (handleToggleDisplay st).1.badgeText = "") ∧
    getPopupData (handleToggleDisplay st).1 =
      { tabs := mapValues st.tabDurations,
        totalDurationSeconds := calculateTotalRemaining st.tabDurations,
        totalFormatted :=
          formatDuration (JSNum.num (calculateTotalRemaining st.tabDurations)),
        displayEnabled := !st.displayEnabled } := by
  unfold handleToggleDisplay
  refine ⟨updateBadge_displayEnabled _, rfl, updateBadge_flagWrites _,
    updateBadge_cacheWrites _, updateBadge_tabDurations _, ?_, ?_⟩
  · intro hon
    refine updateBadge_badgeText_disabled _ ?_
    simp [hon]
  · unfold getPopupData
    rw [updateBadge_tabDurations, updateBadge_displayEnabled]

/-- Claim C7 witness: toggling the enabled sample state clears the badge
and returns the flipped flag. -/
theorem c7_witness :
    (handleToggleDisplay stOn).1.badgeText = "" ∧
    (handleToggleDisplay stOn).2 = !stOn.displayEnabled :=
  ⟨(c7_toggle stOn).2.2.2.2.2.1 rfl, (c7_toggle stOn).2.1⟩

/-- Claim C8 counterexample: the five claimed formatter equalities do not
all hold — `formatDurationLong 0` is "0 seconds", not "0 minutes". -/
theorem c8_counterexample :
    ¬ (formatDuration (JSNum.num 0) = "0m" ∧
       formatDuration (JSNum.num 5400) = "1h30m" ∧
       formatTimestamp (JSNum.num 90) = "1:30" ∧
       formatTimestamp (JSNum.num 3661) = "1:01:01" ∧
       formatDurationLong (JSNum.num 0) = "0 minutes") := by
  with_unfolding_all decide

/-- Claim C8 (amended): the formatter equalities as the code computes
them: `formatDuration 0 = "0m"`, `formatDuration 5400 = "1h30m"`,
`formatTimestamp 90 = "1:30"`, `formatTimestamp 3661 = "1:01:01"`, and
`formatDurationLong 0 = "0 seconds"` (zero falls into the sub-minute
branch, which prints seconds). -/
theorem c8_formatters :
    formatDuration (JSNum.num 0) = "0m" ∧
    formatDuration (JSNum.num 5400) = "1h30m" ∧
    formatTimestamp (JSNum.num 90) = "1:30" ∧
    formatTimestamp (JSNum.num 3661) = "1:01:01" ∧
    formatDurationLong (JSNum.num 0) = "0 seconds" := by
  with_unfolding_all decide

/-- Claim C9: on every reachable coordinator state no record carries a
`playbackRate` (the `DurationResponse` message has no such field, and
rehydration only replays previously persisted records), so the aggregate
divides by 1 throughout: each non-loading record contributes exactly
`durationSeconds - currentTimeSeconds` whenever that difference is finite
and positive. -/
theorem c9_no_playback_rate {st : CoordState} (h : Reachable st) :
    (∀ p ∈ st.tabDurations, p.2.playbackRate = none) ∧
    calculateTotalRemaining st.tabDurations = noRateTotal st.tabDurations := by
  have hr := reachable_ratesAbsent h
  refine ⟨hr.1, ?_⟩
  unfold calculateTotalRemaining
  rw [calculateTotalRemaining_aux, zero_add]
  exact amendedTotal_eq_noRateTotal hr.1

/-- Claim C9 witness: after one push into the initial state, the stored
record has no rate and the aggregate is the plain difference 100. -/
theorem c9_witness :
    (toInfo 3 sampleResp).playbackRate = none ∧
    calculateTotalRemaining
        (handleReportDuration initState (some 3) sampleResp).tabDurations =
      noRateTotal
        (handleReportDuration initState (some 3) sampleResp).tabDurations :=
  ⟨rfl,
   (c9_no_playback_rate
     (Reachable.report Reachable.init (some 3) sampleResp)).2⟩

/-- Claim C10: on every reachable coordinator state each entry of the
record mapping is keyed by its own record's `tabId`: push and pull insert
`(tabId, record keyed tabId)`, rehydration keys each restored record by
its own `tabId` field, and deletions preserve the invariant. -/
theorem c10_keys_match {st : CoordState} (h : Reachable st) :
    ∀ p ∈ st.tabDurations, p.2.tabId = p.1 := by
  induction h with
  | init => exact fun p hp => absurd hp (List.not_mem_nil p)
  | freshStart flag =>
    unfold rehydrate
    rw [updateBadge_tabDurations]
    exact fun p hp => absurd hp (List.not_mem_nil p)
  | report h sender data ih =>
    cases sender with
    | none => exact ih
    | some tabId =>
      unfold handleReportDuration
      by_cases hurl : isYouTubeVideoUrl (some data.url) = true
      · simp only [hurl, Bool.not_true, Bool.false_eq_true, if_false,
          updateBadge_tabDurations]
        intro p hp
        rcases mem_mapSet hp with h1 | h1
        · exact ih p h1
        · rw [h1]
          rfl
      · have hurl2 : isYouTubeVideoUrl (some data.url) = false :=
          Bool.eq_false_iff.mpr hurl
        simp only [hurl2, Bool.not_false, if_true, updateBadge_tabDurations]
        exact fun p hp => ih p (mem_mapDelete hp)
  | pull h tabId response ih =>
    cases response with
    | none => exact ih
    | some r =>
      rw [show (requestDurationFromTab _ tabId (some r)).tabDurations =
          mapSet _ tabId (toInfo tabId r) from updateBadge_tabDurations _]
      intro p hp
      rcases mem_mapSet hp with h1 | h1
      · exact ih p h1
      · rw [h1]
        rfl
  | tabGone h tabId ih =>
    unfold handleTabGone
    split
    · rw [updateBadge_tabDurations]
      exact fun p hp => ih p (mem_mapDelete hp)
    · exact ih
  | scan h activeTabIds ih =>
    unfold scanCleanup
    rw [updateBadge_tabDurations]
    exact fun p hp => ih p (List.mem_of_mem_filter hp)
  | toggle h ih =>
    unfold handleToggleDisplay
    rw [updateBadge_tabDurations]
    exact ih
  | fire h ih =>
    unfold firePersistTimer
    split
    · exact ih
    · exact ih
  | restart h flag cache hc ih =>
    unfold rehydrate
    rw [updateBadge_tabDurations]
    exact @mem_foldl_mapSet cache (fun p => p.2.tabId = p.1)
      (fun i hi => rfl) [] (fun p hp => absurd hp (List.not_mem_nil p))

/-- Claim C10 witness: after one pull response into the initial state, the
single entry is keyed by its record's tabId. -/
theorem c10_witness : (toInfo 5 sampleResp).tabId = 5 :=
  c10_keys_match (Reachable.pull Reachable.init 5 (some sampleResp))
    (5, toInfo 5 sampleResp) (by with_unfolding_all decide)
